import Mathlib

/-!
Verification of the FastAPI hello-world service (src/main.py) against its
natural-language specification.  The Python program is shallowly embedded:
pydantic models become Lean structures, field constraints become boolean
validators, handlers become pure functions, the HTTP error raised by
`show_person` becomes an `Except` error, and the application as a whole is
a dispatcher `handle` over a request sum type and an explicit state
carrying the `persons` list.
-/

/-- Embeds `class HairColor(Enum)` of src/main.py: the five admissible
hair colors. -/
inductive HairColor where
  | white
  | brown
  | black
  | blonde
  | red
deriving DecidableEq, Repr

/-- Embeds `class Location(BaseModel)`: city, state, country, each a
required string (constraints `min_length=1, max_length=50` are checked by
`location_errors` below). -/
structure Location where
  city : String
  state : String
  country : String
deriving DecidableEq, Repr

/-- Embeds `class PersonBase(BaseModel)`: the shared shape of `Person`
and `PersonOut`.  `EmailStr` and `HttpUrl` are kept as strings; their
format checks live in the pydantic dependency, outside this repository,
and no claim depends on them. -/
structure PersonBase where
  first_name : String
  last_name : String
  age : Int
  hair_color : Option HairColor
  is_married : Option Bool
  email : String
  personal_site : Option String
deriving DecidableEq, Repr

/-- Embeds `class Person(PersonBase)`: adds the required `password`
(constraint `min_length=8` is checked by `person_errors`). -/
structure Person extends PersonBase where
  password : String
deriving DecidableEq, Repr

/-- Embeds `class PersonOut(PersonBase): pass` — the response shape: the
`PersonBase` fields and nothing else, in particular no password field. -/
structure PersonOut extends PersonBase
deriving DecidableEq, Repr

/-- Embeds `class LoginOut(BaseModel)`: username (max 20 chars, checked
by `mk_login_out`) and a message defaulting to the fixed success text. -/
structure LoginOut where
  username : String
  message : String
deriving DecidableEq, Repr

/-- Embeds the pydantic string-length constraint
`min_length=lo, max_length=hi` on a field value. -/
def str_len_ok (lo hi : Nat) (s : String) : Bool :=
  decide (lo ≤ s.length) && decide (s.length ≤ hi)

/-- Embeds the age field constraint of `PersonBase.age`
(src/main.py lines 65-69): `Field(..., gt=18, le=115)`. -/
def age_ok (a : Int) : Bool :=
  decide (18 < a) && decide (a ≤ 115)

/-- The in-source pydantic constraints of `Person`, as the list of field
names that fail validation (empty means the payload is accepted).  This
embeds the structured per-field error response pydantic produces before
the handler runs. -/
def person_errors (p : Person) : List String :=
  (if str_len_ok 1 50 p.first_name then [] else ["first_name"]) ++
  (if str_len_ok 1 50 p.last_name then [] else ["last_name"]) ++
  (if age_ok p.age then [] else ["age"]) ++
  (if decide (8 ≤ p.password.length) then [] else ["password"])

/-- The in-source pydantic constraints of `Location`: each of city,
state, country has `min_length=1, max_length=50`. -/
def location_errors (l : Location) : List String :=
  (if str_len_ok 1 50 l.city then [] else ["city"]) ++
  (if str_len_ok 1 50 l.state then [] else ["state"]) ++
  (if str_len_ok 1 50 l.country then [] else ["country"])

/-- Request validation for a `Person` body: a structured error rejects
the request before any handler logic executes, otherwise the validated
payload is passed on. -/
def validate_person (p : Person) : Except (List String) Person :=
  if person_errors p = [] then Except.ok p else Except.error (person_errors p)

/-- Embeds the handler `create_person` (src/main.py lines 130-158)
together with `response_model=PersonOut`: the handler returns the person,
and the response model keeps exactly the `PersonBase` fields, dropping
`password`. -/
def create_person (p : Person) : PersonOut :=
  ⟨p.toPersonBase⟩

/-- The full POST /person/new pipeline: validate the body, then run the
handler shaped by its response model. -/
def create_person_endpoint (p : Person) : Except (List String) PersonOut :=
  (validate_person p).map create_person

/-- Embeds the query-parameter handler `show_person`
(src/main.py lines 164-201): `return {name: age}` as a single-entry
association list. -/
def show_person_query (name : Option String) (age : Int) : List (Option String × Int) :=
  [(name, age)]

/-- The declared default of the optional `name` query parameter:
`Query(None, ...)`. -/
def name_query_default : Option String := none

/-- How Python JSON serialization renders a dict key: `None` becomes the
JSON key `null` (modelled from the behaviour of `json.dumps` used by the
hosting framework, which is outside this repository). -/
def json_key : Option String → String
  | none => "null"
  | some s => s

/-- Embeds `raise HTTPException(status_code=..., detail=...)`. -/
structure HTTPException where
  status_code : Nat
  detail : String
deriving DecidableEq, Repr

/-- Embeds `persons = [1, 2, 3, 4, 5]` (src/main.py line 205). -/
def persons : List Int := [1, 2, 3, 4, 5]

/-- Embeds the path-parameter handler `show_person`
(src/main.py lines 207-244), parameterized by the current `persons`
list: absent ids raise a 404 with the custom message, present ids
return the single-entry mapping id to the marker. -/
def show_person_path (ps : List Int) (person_id : Int) :
    Except HTTPException (List (Int × String)) :=
  if person_id ∉ ps then
    Except.error ⟨404, "This person doesn\x27t exists!"⟩
  else
    Except.ok [(person_id, "It exists!")]

/-- JSON-serializable values appearing in the dicts built by
`update_person`. -/
inductive JValue where
  | s (v : String)
  | i (v : Int)
  | b (v : Bool)
  | hc (v : HairColor)
  | null
deriving DecidableEq, Repr

/-- Embeds `person.dict()`: pydantic serializes the fields in declaration
order, base-class fields first, so `password` comes last. -/
def person_dict (p : Person) : List (String × JValue) :=
  [("first_name", JValue.s p.first_name),
   ("last_name", JValue.s p.last_name),
   ("age", JValue.i p.age),
   ("hair_color", match p.hair_color with
     | some c => JValue.hc c
     | none => JValue.null),
   ("is_married", match p.is_married with
     | some b => JValue.b b
     | none => JValue.null),
   ("email", JValue.s p.email),
   ("personal_site", match p.personal_site with
     | some u => JValue.s u
     | none => JValue.null),
   ("password", JValue.s p.password)]

/-- Embeds `location.dict()`. -/
def location_dict (l : Location) : List (String × JValue) :=
  [("city", JValue.s l.city),
   ("state", JValue.s l.state),
   ("country", JValue.s l.country)]

/-- Python dict assignment `d[k] = v`: replace the value in place if the
key exists, otherwise append the pair at the end. -/
def dict_set (d : List (String × JValue)) (k : String) (v : JValue) :
    List (String × JValue) :=
  if d.any (fun kv => kv.1 == k) then
    d.map (fun kv => if kv.1 == k then (k, v) else kv)
  else
    d ++ [(k, v)]

/-- Python `d.update(other)`: set every key of `other` in `d`, in
order. -/
def dict_update (d other : List (String × JValue)) : List (String × JValue) :=
  other.foldl (fun acc kv => dict_set acc kv.1 kv.2) d

/-- Embeds the handler `update_person` (src/main.py lines 255-293):
`results = person.dict(); results.update(location.dict()); return
results`. -/
def update_person (person_id : Int) (person : Person) (location : Location) :
    List (String × JValue) :=
  dict_update (person_dict person) (location_dict location)

/-- Embeds the handler `updat_location` (src/main.py lines 295-329):
`return location`. -/
def updat_location (person_id : Int) (location : Location) : Location :=
  location

/-- Embeds `LoginOut(username=username)`: the pydantic constructor
checks `max_length=20` on `username` and fills the default `message`;
a constraint violation raises a validation error instead of producing a
value. -/
def mk_login_out (username : String) : Except (List String) LoginOut :=
  if username.length ≤ 20 then
    Except.ok ⟨username, "Login Succesfully!"⟩
  else
    Except.error ["username"]

/-- Embeds the handler `login` (src/main.py lines 338-357): builds a
`LoginOut` from the submitted username; the password is never read. -/
def login (username password : String) : Except (List String) LoginOut :=
  mk_login_out username

/-- Embeds the handler `contact` (src/main.py lines 368-405):
`return user_agent`. -/
def contact (first_name last_name email message : String)
    (user_agent ads : Option String) : Option String :=
  user_agent

/-- Embeds `UploadFile`: the uploaded file with its declared metadata and
its raw bytes (each byte a `Nat`; only the count matters to the code). -/
structure UploadFile where
  filename : String
  content_type : String
  content : List Nat
deriving DecidableEq, Repr

/-- Round-half-to-even on a rational, the semantics of Python `round`
applied to the exactly-representable values `n/1024`. -/
def roundHalfEven (q : ℚ) : ℤ :=
  if q - ⌊q⌋ < 1/2 then ⌊q⌋
  else if 1/2 < q - ⌊q⌋ then ⌊q⌋ + 1
  else if ⌊q⌋ % 2 = 0 then ⌊q⌋ else ⌊q⌋ + 1

/-- Python `round(x, ndigits=2)` on those values: round to a multiple of
1/100. -/
def round2 (q : ℚ) : ℚ :=
  (roundHalfEven (q * 100) : ℚ) / 100

/-- The body returned by `post_image`: keys "Filename", "Format",
"Size(kb)" of src/main.py lines 429-433. -/
structure ImageInfo where
  filename : String
  format : String
  size_kb : ℚ
deriving DecidableEq, Repr

/-- Embeds the handler `post_image` (src/main.py lines 413-433):
`round(len(image.file.read())/1024, ndigits=2)`. -/
def post_image (image : UploadFile) : ImageInfo :=
  { filename := image.filename
    format := image.content_type
    size_kb := round2 ((image.content.length : ℚ) / 1024) }

/-- Embeds the handler `home`: `return {"Hello": "world"}`. -/
def home : List (String × String) := [("Hello", "world")]

/-- The whole process state: the only module-level mutable value is the
`persons` list. -/
structure AppState where
  persons : List Int
deriving DecidableEq, Repr

/-- One request to any of the nine routes of the application. -/
inductive Request where
  | home_req
  | create_person_req (p : Person)
  | show_person_query_req (name : Option String) (age : Int)
  | show_person_path_req (person_id : Int)
  | update_person_req (person_id : Int) (p : Person) (l : Location)
  | updat_location_req (person_id : Int) (l : Location)
  | login_req (username password : String)
  | contact_req (first_name last_name email message : String)
      (user_agent ads : Option String)
  | post_image_req (f : UploadFile)

/-- A response from any of the routes. -/
inductive Response where
  | greeting (m : List (String × String))
  | created (p : PersonOut)
  | validation_failed (fields : List String)
  | name_age (m : List (Option String × Int))
  | id_marker (m : List (Int × String))
  | http_error (e : HTTPException)
  | merged (d : List (String × JValue))
  | location_echo (l : Location)
  | login_ok (r : LoginOut)
  | login_error (fields : List String)
  | header_echo (h : Option String)
  | image_info (i : ImageInfo)

/-- The application dispatcher: route a request through the matching
handler.  Every branch passes the state through unchanged, because no
handler in src/main.py assigns to `persons`. -/
def handle (st : AppState) : Request → AppState × Response
  | Request.home_req => (st, Response.greeting home)
  | Request.create_person_req p =>
      (st, match create_person_endpoint p with
        | Except.ok o => Response.created o
        | Except.error errs => Response.validation_failed errs)
  | Request.show_person_query_req n a =>
      (st, Response.name_age (show_person_query n a))
  | Request.show_person_path_req id =>
      (st, match show_person_path st.persons id with
        | Except.ok m => Response.id_marker m
        | Except.error e => Response.http_error e)
  | Request.update_person_req id p l =>
      (st, Response.merged (update_person id p l))
  | Request.updat_location_req id l =>
      (st, Response.location_echo (updat_location id l))
  | Request.login_req u pw =>
      (st, match login u pw with
        | Except.ok r => Response.login_ok r
        | Except.error errs => Response.login_error errs)
  | Request.contact_req fn ln em msg ua ads =>
      (st, Response.header_echo (contact fn ln em msg ua ads))
  | Request.post_image_req f =>
      (st, Response.image_info (post_image f))

/-- Serve a sequence of requests, threading the state. -/
def run_requests (st : AppState) : List Request → AppState
  | [] => st
  | r :: rs => run_requests (handle st r).1 rs

/-- The state the process starts with. -/
def initial_state : AppState := ⟨persons⟩

/-- Claim C1: age validation accepts exactly the integers with
18 < age ≤ 115 — 18 is rejected, 19 and 115 are accepted — and a Person
payload whose age is out of bounds is rejected with a structured
per-field validation error before the handler runs. -/
theorem age_validation_spec :
    (∀ a : Int, age_ok a = true ↔ (18 < a ∧ a ≤ 115)) ∧
    age_ok 18 = false ∧ age_ok 19 = true ∧ age_ok 115 = true ∧
    (∀ p : Person, ¬(18 < p.age ∧ p.age ≤ 115) →
      create_person_endpoint p = Except.error (person_errors p) ∧
      "age" ∈ person_errors p) := by
  refine ⟨?_, by decide, by decide, by decide, ?_⟩
  · intro a
    simp [age_ok]
  · intro p h
    have hage : age_ok p.age = false := by
      simp only [age_ok, Bool.and_eq_false_iff, decide_eq_false_iff_not]
      omega
    have hmem : "age" ∈ person_errors p := by
      simp [person_errors, hage]
    have hne : person_errors p ≠ [] := by
      intro h0
      rw [h0] at hmem
      exact List.not_mem_nil _ hmem
    refine ⟨?_, hmem⟩
    simp [create_person_endpoint, validate_person, hne, Except.map]

/-- Witness for C1 at the concrete boundary payload with age 18. -/
theorem age_validation_spec_witness :
    ¬(18 < (Person.mk ⟨"Azkur", "Dev", 18, none, none, "azkur.zone@gmail.com", none⟩ "123454678").age ∧
        (Person.mk ⟨"Azkur", "Dev", 18, none, none, "azkur.zone@gmail.com", none⟩ "123454678").age ≤ 115) ∧
    (create_person_endpoint
        (Person.mk ⟨"Azkur", "Dev", 18, none, none, "azkur.zone@gmail.com", none⟩ "123454678") =
      Except.error (person_errors
        (Person.mk ⟨"Azkur", "Dev", 18, none, none, "azkur.zone@gmail.com", none⟩ "123454678")) ∧
     "age" ∈ person_errors
        (Person.mk ⟨"Azkur", "Dev", 18, none, none, "azkur.zone@gmail.com", none⟩ "123454678")) :=
  ⟨by decide, age_validation_spec.2.2.2.2 _ (by decide)⟩

/-- Claim C2: for every valid Person payload, POST /person/new returns
exactly the PersonBase fields of the input, with the same values; the
response shape `PersonOut` has no password field. -/
theorem create_person_spec : ∀ p : Person, person_errors p = [] →
    create_person_endpoint p = Except.ok ⟨p.toPersonBase⟩ := by
  intro p h
  simp [create_person_endpoint, validate_person, h, Except.map, create_person]

/-- Witness for C2 at the documented example payload. -/
theorem create_person_spec_witness :
    person_errors (Person.mk ⟨"Azkur", "Dev", 38, some HairColor.brown, some true,
        "azkur.zone@gmail.com", some "https://www.azkur.com"⟩ "123454678") = [] ∧
    create_person_endpoint (Person.mk ⟨"Azkur", "Dev", 38, some HairColor.brown, some true,
        "azkur.zone@gmail.com", some "https://www.azkur.com"⟩ "123454678") =
      Except.ok ⟨⟨"Azkur", "Dev", 38, some HairColor.brown, some true,
        "azkur.zone@gmail.com", some "https://www.azkur.com"⟩⟩ :=
  ⟨by decide, create_person_spec _ (by decide)⟩

/-- Claim C3: for every positive person_id, the path version of
show_person raises the 404 with the custom message exactly when the id
is not in the fixed list [1, 2, 3, 4, 5], and otherwise returns the
single-entry mapping from the id to the marker. -/
theorem show_person_path_spec : ∀ person_id : Int, 0 < person_id →
    ((show_person_path persons person_id =
        Except.error ⟨404, "This person doesn\x27t exists!"⟩) ↔ person_id ∉ persons) ∧
    (person_id ∈ persons →
      show_person_path persons person_id = Except.ok [(person_id, "It exists!")]) ∧
    persons = [1, 2, 3, 4, 5] := by
  intro id hpos
  refine ⟨?_, ?_, rfl⟩
  · by_cases hmem : id ∈ persons
    · simp [show_person_path, hmem]
    · simp [show_person_path, hmem]
  · intro hmem
    simp [show_person_path, hmem]

/-- Witness for C3 at person_id = 3, a member of the list. -/
theorem show_person_path_spec_witness :
    (0 : Int) < 3 ∧
    (((show_person_path persons 3 =
        Except.error ⟨404, "This person doesn\x27t exists!"⟩) ↔ (3 : Int) ∉ persons) ∧
    ((3 : Int) ∈ persons →
      show_person_path persons 3 = Except.ok [((3 : Int), "It exists!")]) ∧
    persons = [1, 2, 3, 4, 5]) :=
  ⟨by decide, show_person_path_spec 3 (by decide)⟩

/-- Claim C4: PUT /person/(person_id) returns one flat mapping holding
every field of the Person — password included — together with every
field of the Location, whose city, state and country values come from
the Location body; the key list is exactly the eight Person fields
followed by the three Location fields. -/
theorem update_person_spec : ∀ (person_id : Int) (p : Person) (l : Location),
    (update_person person_id p l).lookup "first_name" = some (JValue.s p.first_name) ∧
    (update_person person_id p l).lookup "last_name" = some (JValue.s p.last_name) ∧
    (update_person person_id p l).lookup "age" = some (JValue.i p.age) ∧
    (update_person person_id p l).lookup "hair_color" =
      some (match p.hair_color with
        | some c => JValue.hc c
        | none => JValue.null) ∧
    (update_person person_id p l).lookup "is_married" =
      some (match p.is_married with
        | some b => JValue.b b
        | none => JValue.null) ∧
    (update_person person_id p l).lookup "email" = some (JValue.s p.email) ∧
    (update_person person_id p l).lookup "personal_site" =
      some (match p.personal_site with
        | some u => JValue.s u
        | none => JValue.null) ∧
    (update_person person_id p l).lookup "password" = some (JValue.s p.password) ∧
    (update_person person_id p l).lookup "city" = some (JValue.s l.city) ∧
    (update_person person_id p l).lookup "state" = some (JValue.s l.state) ∧
    (update_person person_id p l).lookup "country" = some (JValue.s l.country) ∧
    (update_person person_id p l).map Prod.fst =
      ["first_name", "last_name", "age", "hair_color", "is_married", "email",
       "personal_site", "password", "city", "state", "country"] := by
  intro person_id p l
  exact ⟨rfl, rfl, rfl, rfl, rfl, rfl, rfl, rfl, rfl, rfl, rfl, rfl⟩

/-- Claim C5 fails as stated: a username longer than 20 characters
passes the form (which has no length bound) but makes the `LoginOut`
constructor raise a validation error, so the request does not succeed
with the username echoed. -/
theorem login_long_username_rejected :
    login "username_is_21_chars_" "password123" = Except.error ["username"] := rfl

/-- Claim C5 as amended: for every username of at most 20 characters and
every password, login succeeds with that username and the fixed message,
and the password value never affects the result. -/
theorem login_spec : ∀ username password : String,
    (∀ password2 : String, login username password = login username password2) ∧
    (username.length ≤ 20 →
      login username password = Except.ok ⟨username, "Login Succesfully!"⟩) := by
  intro u pw
  refine ⟨fun _ => rfl, ?_⟩
  intro h
  simp [login, mk_login_out, h]

/-- Witness for C5 at the documented example username. -/
theorem login_spec_witness :
    login "username2022" "firstpass" = login "username2022" "secondpass" ∧
    "username2022".length ≤ 20 ∧
    login "username2022" "firstpass" =
      Except.ok ⟨"username2022", "Login Succesfully!"⟩ :=
  ⟨(login_spec "username2022" "firstpass").1 "secondpass", by decide,
   (login_spec "username2022" "firstpass").2 (by decide)⟩

/-- Claim C7: PUT /person/location/(person_id) is the identity on the
Location and the path id does not affect the response. -/
theorem updat_location_spec : ∀ (person_id : Int) (l : Location), 0 < person_id →
    updat_location person_id l = l ∧
    ∀ person_id2 : Int, updat_location person_id l = updat_location person_id2 l := by
  intro person_id l h
  exact ⟨rfl, fun _ => rfl⟩

/-- Witness for C7 at id 333 and the documented example location. -/
theorem updat_location_spec_witness :
    (0 : Int) < 333 ∧
    updat_location 333 (Location.mk "Campeche" "Campeche" "Mexico") =
      Location.mk "Campeche" "Campeche" "Mexico" ∧
    updat_location 333 (Location.mk "Campeche" "Campeche" "Mexico") =
      updat_location 999 (Location.mk "Campeche" "Campeche" "Mexico") :=
  ⟨by decide,
   (updat_location_spec 333 (Location.mk "Campeche" "Campeche" "Mexico") (by decide)).1,
   (updat_location_spec 333 (Location.mk "Campeche" "Campeche" "Mexico") (by decide)).2 999⟩

/-- Claim C8: POST /contact returns the optional user-agent header value
as the body; the form fields and the cookie value never influence the
response. -/
theorem contact_spec : ∀ (fn ln em msg : String) (ua ads : Option String),
    contact fn ln em msg ua ads = ua ∧
    ∀ (fn2 ln2 em2 msg2 : String) (ads2 : Option String),
      contact fn ln em msg ua ads = contact fn2 ln2 em2 msg2 ua ads2 := by
  intro fn ln em msg ua ads
  exact ⟨rfl, fun _ _ _ _ _ => rfl⟩

/-- Claim C10: with the name query parameter omitted it defaults to
none, and the handler returns the single-entry mapping from none to the
age — serialized as a JSON object whose only key is null — for every
integer age, with no range validation (negative ages included). -/
theorem show_person_query_spec : ∀ age : Int,
    name_query_default = none ∧
    show_person_query name_query_default age = [(none, age)] ∧
    (show_person_query name_query_default age).map (fun kv => json_key kv.1) = ["null"] ∧
    show_person_query name_query_default (-30) = [(none, -30)] := by
  intro age
  exact ⟨rfl, rfl, rfl, rfl⟩

/-- Round-half-to-even moves a rational by at most one half. -/
theorem roundHalfEven_sub_le (q : ℚ) : |(roundHalfEven q : ℚ) - q| ≤ 1/2 := by
  have h0 : (⌊q⌋ : ℚ) ≤ q := Int.floor_le q
  have h1 : q < ⌊q⌋ + 1 := Int.lt_floor_add_one q
  unfold roundHalfEven
  split_ifs with hlt hgt hev <;> rw [abs_le] <;> constructor <;> push_cast <;> linarith

/-- Rounding to two decimal places moves a rational by at most 1/200. -/
theorem round2_err (q : ℚ) : |round2 q - q| ≤ 1/200 := by
  have h := roundHalfEven_sub_le (q * 100)
  rw [abs_le] at h ⊢
  unfold round2
  constructor <;> linarith [h.1, h.2]

/-- Claim C6: POST /post-image echoes the filename and the declared
content type, and reports the size as the byte count divided by 1024
rounded to two decimal places (so within 1/200 of the exact ratio, and a
multiple of 1/100); a file of exactly 2048 bytes yields size 2.0. -/
theorem post_image_spec : ∀ f : UploadFile,
    (post_image f).filename = f.filename ∧
    (post_image f).format = f.content_type ∧
    (post_image f).size_kb = round2 ((f.content.length : ℚ) / 1024) ∧
    |(post_image f).size_kb - (f.content.length : ℚ) / 1024| ≤ 1/200 ∧
    (post_image ⟨"img.png", "image/png", List.replicate 2048 0⟩).size_kb = 2 := by
  intro f
  refine ⟨rfl, rfl, rfl, round2_err _, ?_⟩
  show round2 (((List.replicate 2048 (0 : Nat)).length : ℚ) / 1024) = 2
  rw [List.length_replicate]
  norm_num [round2, roundHalfEven]

/-- Every route leaves the application state unchanged. -/
theorem handle_state_eq (st : AppState) (req : Request) : (handle st req).1 = st := by
  cases req <;> rfl

/-- Serving any request sequence leaves the state unchanged. -/
theorem run_requests_state_eq (reqs : List Request) :
    ∀ st : AppState, run_requests st reqs = st := by
  induction reqs with
  | nil => intro st; rfl
  | cons r rs ih =>
      intro st
      show run_requests (handle st r).1 rs = st
      rw [handle_state_eq]
      exact ih st

/-- Claim C9: the fixed persons list [1, 2, 3, 4, 5] is never mutated:
every handler passes the state through unchanged, membership checks give
the same result on every request, and after any request sequence the
list still equals [1, 2, 3, 4, 5]. -/
theorem persons_immutable :
    (∀ (st : AppState) (req : Request),
      (handle st req).1 = st ∧
      ∀ id : Int, (id ∈ (handle st req).1.persons ↔ id ∈ st.persons)) ∧
    (∀ reqs : List Request, (run_requests initial_state reqs).persons = [1, 2, 3, 4, 5]) := by
  constructor
  · intro st req
    refine ⟨handle_state_eq st req, ?_⟩
    intro id
    rw [handle_state_eq]
  · intro reqs
    rw [run_requests_state_eq]
    rfl
